import Mathlib

/-!
Shallow embedding of `src/spreadsheet_compiler.py` (pySpreadsheetCompiler).

Cells of a pandas DataFrame are modelled as `Option String`: `none` is
NaN/missing, `some s` is a (string-rendered) value.  All cell values that the
program ever compares are compared through `str(cell)`, so the string
rendering loses nothing the program looks at.  A DataFrame is its list of
column labels (labels themselves can be NaN, hence `Option String`) together
with its list of rows, each row aligned positionally with the columns.
-/

namespace SpreadsheetCompiler

/-- A pandas cell: `none` models NaN/missing, `some s` a value rendered as string. -/
abbrev Cell := Option String

/-- A pandas DataFrame: column labels (possibly NaN) and rows aligned to them. -/
structure DF where
  cols : List Cell
  rows : List (List Cell)
deriving Repr, DecidableEq

/-- `matchesAt pat s` : does `pat` occur at the very start of `s`? -/
def matchesAt : List Char → List Char → Bool
  | [], _ => true
  | _ :: _, [] => false
  | p :: ps, c :: cs => p == c && matchesAt ps cs

/-- `occursIn pat s` : does `pat` occur as a contiguous run somewhere in `s`? -/
def occursIn (pat : List Char) : List Char → Bool
  | [] => matchesAt pat []
  | c :: t => matchesAt pat (c :: t) || occursIn pat t

/-- `containsSub s pat` : Python's `pat in s` / pandas `str.contains` with a
literal pattern (none of the program's keywords use regex metacharacters). -/
def containsSub (s pat : String) : Bool := occursIn pat.toList s.toList

/-- Python's `str.upper()` restricted to ASCII, which covers every string the
program compares.  (`String.toUpper` itself is defined by well-founded
recursion over byte positions and does not reduce definitionally, so we map
over the character list instead.) -/
def upperStr (s : String) : String := ⟨s.data.map Char.toUpper⟩

/-- Index of the first element satisfying `p`, scanning left to right
(the Python `for ... break` loop shape). -/
def firstIdx {α : Type} (p : α → Bool) : List α → Option Nat
  | [] => none
  | a :: t => if p a then some 0 else (firstIdx p t).map (· + 1)

/-- `header_indicators` list of `clean_dataframe` (source lines 25-28). -/
def header_indicators : List String :=
  ["CUSTOMER_INVOICE_NUMBER", "ID", "INVOICE", "CUSTOMER", "BILLING",
   "CURRENCY", "DATE", "AMOUNT", "FEE", "CHARGE"]

/-- `row_str = ' '.join(str(cell).upper() for cell in row.values if pd.notna(cell))`
(source line 34): space-joined uppercased non-null cells. -/
def rowStr (row : List Cell) : String :=
  String.intercalate " " ((row.filterMap id).map upperStr)

/-- `indicators_found = sum(1 for indicator in header_indicators if indicator in row_str)`
(source line 37). -/
def indicatorCount (row : List Cell) : Nat :=
  (header_indicators.filter (fun k => containsSub (rowStr row) k)).length

/-- A row is taken as the header when at least two header indicators occur in
its joined string (source lines 35-40; the outer `any(...)` test is subsumed
by `indicators_found >= 2`). -/
def isHeaderRow (row : List Cell) : Bool := indicatorCount row ≥ 2

/-- The header search loop (source lines 33-40): index of the first row with
at least two header indicators. -/
def headerIdx (df : DF) : Option Nat := firstIdx isHeaderRow df.rows

/-- Python `str(cell)` on a pandas cell: NaN renders as `"nan"`
(relevant because the code calls `.astype(str)` before matching). -/
def strOfCell : Cell → String
  | none => "nan"
  | some s => s

/-- `metadata_keywords` of the header-found branch (source lines 59-62). -/
def metadata_keywords_hdr : List String :=
  ["Monthly Billing Summary", "Report", "TOTAL", "Summary",
   "Generated", "Period", "Currency", "Page"]

/-- The header-found branch's first-column mask (source lines 66-68):
`data_df[first_col].astype(str).str.upper().str.contains('|'.join(metadata_keywords), na=False, regex=True)`.
The cell value is uppercased but the keyword pattern is matched as written,
case-sensitively (pandas `str.contains` is case-sensitive by default), so in
practice only the all-caps keyword `TOTAL` can ever match an uppercased value. -/
def hdrMetaMask (c : Cell) : Bool :=
  metadata_keywords_hdr.any (fun k => containsSub (upperStr (strOfCell c)) k)

/-- Number of non-null cells of a row (what pandas `dropna(thresh=..)` counts). -/
def nonNullCount (r : List Cell) : Nat := (r.filter Option.isSome).length

/-- The header-found branch of `clean_dataframe` (source lines 42-72), given
the found header index `h`: the header row's values become the column labels
verbatim, rows strictly after it are kept, rows entirely NaN are dropped
(`dropna(how='all')`), then rows whose first column matches `hdrMetaMask` are
removed.  The first column is selected positionally, faithful whenever the
first label is not duplicated (with a duplicated first label the pandas code
would raise instead). -/
def cleanHeaderFound (df : DF) (h : Nat) : DF :=
  let newHeader := df.rows.getD h []
  let dataRows := (df.rows.drop (h + 1)).filter (fun r => r.any Option.isSome)
  ⟨newHeader, dataRows.filter (fun r => ¬ hdrMetaMask (r.getD 0 none))⟩

/-- `metadata_keywords` of the no-header branch (source lines 81-83). -/
def metadata_keywords_gen : List String :=
  ["Monthly Billing Summary", "Report", "Generated on", "Period:", "Currency:"]

/-- One pass of the no-header branch's keyword loop (source lines 85-90):
drop every row in which some cell's uppercased string rendering contains the
uppercased keyword. -/
def dropKeyword (rows : List (List Cell)) (kw : String) : List (List Cell) :=
  rows.filter (fun r => ¬ r.any (fun c => containsSub (upperStr (strOfCell c)) (upperStr kw)))

/-- The no-header branch after its keyword loop: rows surviving every keyword
pass (source lines 85-90). -/
def afterKeywordFilter (df : DF) : List (List Cell) :=
  metadata_keywords_gen.foldl dropKeyword df.rows

/-- `clean_df.dropna(thresh=len(clean_df.columns) * 0.2)` keeps a row iff its
non-null count is at least the threshold (source line 93).  The Python
threshold is the IEEE-754 double `ncols * 0.2`; for every `n`, an integer
`c` satisfies `c >= double(n * 0.2)` iff `5 * c >= n`: when `5 ∣ n` the double
`n * 0.2 = (n/5)(1 + 2^-54)` rounds to exactly `n/5`, and otherwise it lies
strictly between `n/5` and `⌈n/5⌉`, so the comparison agrees with the exact
rational one.  We therefore embed the comparison in exact arithmetic. -/
def sparseKeep (ncols : Nat) (r : List Cell) : Bool := 5 * nonNullCount r ≥ ncols

/-- The no-header branch of `clean_dataframe` (source lines 74-96): keyword
filtering over all columns, then the sparsity filter. -/
def cleanNoHeader (df : DF) : DF :=
  ⟨df.cols, (afterKeywordFilter df).filter (sparseKeep df.cols.length)⟩

/-- pandas `df.empty`: true when either axis has length zero. -/
def emptyDF (df : DF) : Bool := df.rows.isEmpty || df.cols.isEmpty

/-- `clean_dataframe` (source lines 8-96).  The `filename` argument of the
Python function is only used for logging and carries no data flow, so it is
omitted. -/
def clean_dataframe (df : DF) : DF :=
  if emptyDF df then df
  else
    match headerIdx df with
    | some h => cleanHeaderFound df h
    | none => cleanNoHeader df

/-- `pd.read_excel` with default arguments, on the rectangular value grid of a
worksheet (rows padded with blanks to the sheet's width): the first row is
promoted to column labels, a blank label cell at position `i` becoming
`"Unnamed: <i>"`, and the remaining rows become the data.  This models the
library call at source line 148 for sheets without duplicate header values
(pandas would additionally mangle duplicates). -/
def read_excel (sheet : List (List Cell)) : DF :=
  match sheet with
  | [] => ⟨[], []⟩
  | hdr :: rest =>
    let w := (sheet.map List.length).foldl Nat.max 0
    let pad := fun (r : List Cell) => r ++ List.replicate (w - r.length) (none : Cell)
    let cols := (pad hdr).enum.map (fun p =>
      match p.2 with
      | some s => some s
      | none => some ("Unnamed: " ++ toString p.1))
    ⟨cols, rest.map pad⟩

/-- `df_cleaned['source_file'] = xlsx_file.name` (source line 158): appends a
constant `source_file` column, or overwrites every column already labelled
`source_file`. -/
def addSourceFile (df : DF) (name : String) : DF :=
  if df.cols.contains (some "source_file") then
    ⟨df.cols,
     df.rows.map (fun r =>
       df.cols.zipWith (fun c v => if c == some "source_file" then some name else v) r)⟩
  else
    ⟨df.cols ++ [some "source_file"], df.rows.map (fun r => r ++ [some name])⟩

/-- Column order of `pd.concat(dfs, ignore_index=True)` with the default
`sort=False`: the first frame's columns in order, then each later frame's
not-yet-seen columns in order of appearance (first-seen union). -/
def unionCols (dfs : List DF) : List Cell :=
  dfs.foldl (fun acc df => acc ++ df.cols.filter (fun c => ¬ acc.contains c)) []

/-- Reprojection of one frame's row onto the union column order: a union
label found among the frame's columns takes that (first such) column's value,
a label absent from the frame yields NaN. -/
def projectRow (cols : List Cell) (u : List Cell) (r : List Cell) : List Cell :=
  u.map (fun c =>
    match firstIdx (· == c) cols with
    | some i => r.getD i none
    | none => none)

/-- `pd.concat(all_dataframes, ignore_index=True)` (source line 178): rows of
each frame, in input order, reprojected onto the first-seen union of columns
with missing columns filled NaN.  Faithful for frames without duplicate
column labels (pandas raises on duplicates when reindexing is needed). -/
def concatDFs (dfs : List DF) : DF :=
  let u := unionCols dfs
  ⟨u, dfs.foldr (fun df acc => df.rows.map (projectRow df.cols u) ++ acc) []⟩

/-- Result of reading one input file: the dataframe, or the exception pandas
raised (`except` branch at source lines 168-170). -/
abbrev ReadResult := Except Unit DF

/-- What a run of `compile_xlsx_to_csv` produces: the combined dataframe that
is written to the output CSV (`none` when the function returns `None` without
writing), and the names of the processed files moved to the done folder. -/
structure CompileResult where
  output : Option DF
  moved : List String
deriving Repr, DecidableEq

/-- The per-file loop of `compile_xlsx_to_csv` (source lines 143-166): a file
whose read raised is skipped, a file whose dataframe is empty is skipped, and
every other file contributes its dataframe and is recorded as processed, in
input order.  Note the cleaning call is commented out in the source (lines
150-154): the dataframe is used exactly as read. -/
def surviving (files : List (String × ReadResult)) : List (String × DF) :=
  files.filterMap (fun f =>
    match f.2 with
    | .error _ => none
    | .ok df => if emptyDF df then none else some (f.1, df))

/-- `compile_xlsx_to_csv` (source lines 99-208) over the list of files found
in the ready folder, each paired with the outcome of reading it.  With no
files, or no surviving dataframes, the function returns `None` having written
nothing and moved nothing; otherwise it tags each surviving dataframe with
its source file name, concatenates them, writes the result and moves exactly
the processed files. -/
def compile_xlsx_to_csv (files : List (String × ReadResult)) : CompileResult :=
  if files.isEmpty then ⟨none, []⟩
  else
    let dfs := (surviving files).map (fun p => addSourceFile p.2 p.1)
    if dfs.isEmpty then ⟨none, []⟩
    else ⟨some (concatDFs dfs), (surviving files).map Prod.fst⟩

/-! Concrete inputs used by counterexamples and witnesses. -/

/-- Sheet1 of the spec's end-to-end scenario. -/
def sheet1Raw : List (List Cell) :=
  [[some "Monthly Billing Summary"],
   [some "INVOICE", some "CUSTOMER", some "AMOUNT"],
   [some "1001", some "Acme", some "50.00"]]

/-- Sheet2 of the spec's end-to-end scenario. -/
def sheet2Raw : List (List Cell) :=
  [[some "INVOICE", some "CUSTOMER", some "FEE"],
   [some "1002", some "Globex", some "10.00"]]

/-- The end-to-end scenario run: both sheets read successfully. -/
def pipelineC1 : CompileResult :=
  compile_xlsx_to_csv
    [("sheet1.xlsx", .ok (read_excel sheet1Raw)),
     ("sheet2.xlsx", .ok (read_excel sheet2Raw))]

/-- The merge scenario with data columns {A,B} and {B,C}. -/
def pipelineC2 : CompileResult :=
  compile_xlsx_to_csv
    [("f1.xlsx", .ok ⟨[some "A", some "B"], [[some "a1", some "b1"]]⟩),
     ("f2.xlsx", .ok ⟨[some "B", some "C"], [[some "b2", some "c2"]]⟩)]

/-- A sheet whose header is found at row 0, followed by a data row whose
first cell is the metadata keyword `Report` and one whose first cell contains
`Total`. -/
def df3 : DF :=
  ⟨[some "Unnamed: 0", some "Unnamed: 1", some "Unnamed: 2"],
   [[some "INVOICE", some "CUSTOMER", some "AMOUNT"],
    [some "Report", some "x", some "y"],
    [some "Total paid", some "z", some "w"]]⟩

/-- A sheet whose detected header row has a missing cell at position 1. -/
def df4 : DF :=
  ⟨[some "Unnamed: 0", some "Unnamed: 1", some "Unnamed: 2"],
   [[some "INVOICE", none, some "AMOUNT"],
    [some "1", some "2", some "3"]]⟩

/-- A zero-row dataframe that carries a column name. -/
def df5 : DF := ⟨[some "A"], []⟩

/-- A headerless five-column sheet with one row at exactly 20% non-null and
one entirely null row. -/
def df7 : DF :=
  ⟨[some "c0", some "c1", some "c2", some "c3", some "c4"],
   [[some "x", none, none, none, none],
    [none, none, none, none, none]]⟩

/-- A one-row dataframe that survives the pipeline. -/
def dfGood : DF := ⟨[some "A"], [[some "1"]]⟩

/-! Helper lemmas. -/

/-- Characterization of `firstIdx`: it returns `some i` exactly when position
`i` holds the first element satisfying `p`. -/
theorem firstIdx_eq_some_iff {α : Type} (p : α → Bool) (l : List α) (i : Nat) :
    firstIdx p l = some i ↔
      ((∃ a, l.get? i = some a ∧ p a = true) ∧
       ∀ j b, j < i → l.get? j = some b → p b = false) := by
  induction l generalizing i with
  | nil => simp [firstIdx]
  | cons a t ih =>
    rw [firstIdx]
    by_cases hp : p a
    · rw [if_pos hp]
      constructor
      · intro h
        injection h with h'
        subst h'
        exact ⟨⟨a, rfl, hp⟩, fun j b hj _ => absurd hj (Nat.not_lt_zero j)⟩
      · rintro ⟨⟨b, hb, hpb⟩, h2⟩
        cases i with
        | zero => rfl
        | succ n => exact absurd (h2 0 a (Nat.succ_pos n) rfl) (by simp [hp])
    · rw [if_neg hp]
      cases i with
      | zero =>
        constructor
        · intro h
          cases hf : firstIdx p t with
          | none => rw [hf] at h; simp at h
          | some m => rw [hf] at h; simp at h
        · rintro ⟨⟨b, hb, hpb⟩, -⟩
          rw [List.get?_cons_zero] at hb
          injection hb with hb'
          subst hb'
          exact absurd hpb (by simp [hp])
      | succ n =>
        have hmap : (firstIdx p t).map (· + 1) = some (n + 1) ↔
            firstIdx p t = some n := by
          cases firstIdx p t <;> simp
        rw [hmap, ih n]
        constructor
        · rintro ⟨h1, h2⟩
          refine ⟨by simpa using h1, ?_⟩
          intro j b hj hb
          cases j with
          | zero =>
            rw [List.get?_cons_zero] at hb
            injection hb with hb'
            subst hb'
            simp [hp]
          | succ m => exact h2 m b (by omega) (by simpa using hb)
        · rintro ⟨h1, h2⟩
          refine ⟨by simpa using h1, ?_⟩
          intro j b hj hb
          exact h2 (j + 1) b (by omega) (by simpa using hb)

/-- A run returns the no-op result exactly when no dataframe survives, and
otherwise merges the augmented survivors and moves them; the no-files early
return coincides with the no-survivors one. -/
theorem compile_eq_surviving (files : List (String × ReadResult)) :
    compile_xlsx_to_csv files =
      if (surviving files).isEmpty then ⟨none, []⟩
      else
        ⟨some (concatDFs ((surviving files).map (fun p => addSourceFile p.2 p.1))),
         (surviving files).map Prod.fst⟩ := by
  rw [compile_xlsx_to_csv]
  by_cases he : files.isEmpty
  · obtain rfl := List.isEmpty_iff.mp he
    rfl
  · simp only [he, if_false]
    cases hsurv : surviving files <;> simp [hsurv]

/-! Theorems settling the claims. -/

/-- C1, counterexample: on the spec's two-sheet scenario the pipeline's merged
output does not have columns [INVOICE, CUSTOMER, AMOUNT, FEE, source_file],
nor 2 data rows — the dataframes are merged as read, without any
normalization step. -/
theorem C1_counterexample :
    ¬ (pipelineC1.output.map DF.cols =
         some [some "INVOICE", some "CUSTOMER", some "AMOUNT", some "FEE",
               some "source_file"] ∧
       pipelineC1.output.map (fun d => d.rows.length) = some 2) := by
  decide

/-- C1, amended: the pipeline passes each successfully read dataframe to the
merge unchanged (the cleaning call is commented out in the source), so on the
scenario — with pandas' default promotion of each sheet's first row to column
labels — the merged output has the 7 columns [Monthly Billing Summary,
Unnamed: 1, Unnamed: 2, source_file, INVOICE, CUSTOMER, FEE] and 3 data rows,
each null in every column absent from its source sheet. -/
theorem C1_amended_pipeline :
    pipelineC1 =
      ⟨some ⟨[some "Monthly Billing Summary", some "Unnamed: 1", some "Unnamed: 2",
              some "source_file", some "INVOICE", some "CUSTOMER", some "FEE"],
             [[some "INVOICE", some "CUSTOMER", some "AMOUNT", some "sheet1.xlsx",
               none, none, none],
              [some "1001", some "Acme", some "50.00", some "sheet1.xlsx",
               none, none, none],
              [none, none, none, some "sheet2.xlsx",
               some "1002", some "Globex", some "10.00"]]⟩,
       ["sheet1.xlsx", "sheet2.xlsx"]⟩ := by
  decide

/-- C2, counterexample: merging tables with data columns {A,B} and {B,C} does
not yield columns [A, B, C, source_file] — `source_file` is added to each
frame before concatenation, so it is not last in the union order. -/
theorem C2_counterexample :
    pipelineC2.output.map DF.cols ≠
      some [some "A", some "B", some "C", some "source_file"] := by
  decide

/-- C2, amended: merging two one-row tables with data columns {A,B} and
{B,C} yields the first-seen union of the augmented tables' columns,
[A, B, source_file, C] — `source_file` sits at the end of the first table's
block, not last overall — and each merged row has null in every union column
absent from its source table. -/
theorem C2_amended_union (r1 r2 : List Cell) (h1 : r1.length = 2)
    (h2 : r2.length = 2) :
    compile_xlsx_to_csv
        [("f1.xlsx", .ok ⟨[some "A", some "B"], [r1]⟩),
         ("f2.xlsx", .ok ⟨[some "B", some "C"], [r2]⟩)] =
      ⟨some ⟨[some "A", some "B", some "source_file", some "C"],
             [[r1.getD 0 none, r1.getD 1 none, some "f1.xlsx", none],
              [none, r2.getD 0 none, some "f2.xlsx", r2.getD 1 none]]⟩,
       ["f1.xlsx", "f2.xlsx"]⟩ := by
  obtain ⟨a, b, rfl⟩ := List.length_eq_two.mp h1
  obtain ⟨c, d, rfl⟩ := List.length_eq_two.mp h2
  rfl

/-- C2, witness for the amended theorem at concrete rows. -/
theorem C2_amended_union_witness :
    compile_xlsx_to_csv
        [("f1.xlsx", .ok ⟨[some "A", some "B"], [[some "a1", some "b1"]]⟩),
         ("f2.xlsx", .ok ⟨[some "B", some "C"], [[some "b2", some "c2"]]⟩)] =
      ⟨some ⟨[some "A", some "B", some "source_file", some "C"],
             [[some "a1", some "b1", some "f1.xlsx", none],
              [none, some "b2", some "f2.xlsx", some "c2"]]⟩,
       ["f1.xlsx", "f2.xlsx"]⟩ :=
  C2_amended_union [some "a1", some "b1"] [some "b2", some "c2"] rfl rfl

/-- C3, evaluation at the failing input: with the header found at row 0, the
data row whose first cell is `Report` is kept (the keyword pattern is matched
case-sensitively against the uppercased value, so only the all-caps keyword
`TOTAL` can match — as the removal of the `Total paid` row shows), although
the code's own comment says rows with such metadata text are filtered out. -/
theorem C3_code_evaluation :
    clean_dataframe df3 =
      ⟨[some "INVOICE", some "CUSTOMER", some "AMOUNT"],
       [[some "Report", some "x", some "y"]]⟩ := by
  decide

/-- C4, counterexample: for a sheet whose detected header row is
[INVOICE, NaN, AMOUNT], the resulting column names keep the missing cell as
null — there is no positional `column_1` placeholder. -/
theorem C4_counterexample :
    (clean_dataframe df4).cols = [some "INVOICE", none, some "AMOUNT"] ∧
      ((clean_dataframe df4).cols.getD 1 (some "")).isSome = false := by
  decide

/-- C4, amended: in the header-found path the output column names are the
header row's cell values verbatim — a missing header cell yields a null
column name, with no placeholder substitution. -/
theorem C4_amended_verbatim (df : DF) (h : Nat) (hne : emptyDF df = false)
    (hh : headerIdx df = some h) :
    (clean_dataframe df).cols = df.rows.getD h [] := by
  simp [clean_dataframe, hne, hh, cleanHeaderFound]

/-- C4, witness for the amended theorem on the concrete sheet `df4`. -/
theorem C4_amended_verbatim_witness :
    emptyDF df4 = false ∧ headerIdx df4 = some 0 ∧
      (clean_dataframe df4).cols = df4.rows.getD 0 [] :=
  ⟨by decide, by decide, C4_amended_verbatim df4 0 (by decide) (by decide)⟩

/-- C5, counterexample: on a zero-row input carrying the column name `A`,
normalization returns the input itself, whose column list is non-empty —
not a table with no columns. -/
theorem C5_counterexample :
    clean_dataframe df5 = df5 ∧ (clean_dataframe df5).cols ≠ [] := by
  decide

/-- C5, amended: on every zero-row input, normalization returns the input
dataframe unchanged — zero rows, column names preserved. -/
theorem C5_amended_identity (df : DF) (h : df.rows = []) :
    clean_dataframe df = df := by
  simp [clean_dataframe, emptyDF, h]

/-- C5, witness for the amended theorem on the concrete input `df5`. -/
theorem C5_amended_identity_witness :
    df5.rows = [] ∧ clean_dataframe df5 = df5 :=
  ⟨rfl, C5_amended_identity df5 rfl⟩

/-- C6: the header search returns index `i` exactly when row `i` is the
topmost row whose joined uppercased non-null cells contain at least 2 header
indicators — a row with fewer than 2 (in particular exactly one) is never
selected, and every row above the selected one has fewer than 2, regardless
of how many indicators later rows contain. -/
theorem C6_header_selection (df : DF) (i : Nat) :
    headerIdx df = some i ↔
      ((∃ r, df.rows.get? i = some r ∧ 2 ≤ indicatorCount r) ∧
       ∀ j r', j < i → df.rows.get? j = some r' → indicatorCount r' < 2) := by
  rw [headerIdx, firstIdx_eq_some_iff]
  simp only [isHeaderRow, ge_iff_le, decide_eq_true_eq, decide_eq_false_iff_not,
    Nat.not_le]

/-- C7: in the no-header path, among the rows surviving the keyword
filtering, a row is in the output iff its non-null cell count is not below
20% of the column count — so a row at exactly 20% is retained and one below
is dropped. -/
theorem C7_sparsity (df : DF) (r : List Cell) (hr : r ∈ afterKeywordFilter df) :
    r ∈ (cleanNoHeader df).rows ↔
      ¬ ((nonNullCount r : ℚ) < (df.cols.length : ℚ) / 5) := by
  show r ∈ (afterKeywordFilter df).filter (sparseKeep df.cols.length) ↔ _
  rw [List.mem_filter]
  simp only [hr, true_and, sparseKeep, ge_iff_le, decide_eq_true_eq, not_lt,
    div_le_iff₀ (show (0 : ℚ) < 5 by norm_num)]
  rw [mul_comm]
  exact_mod_cast Iff.rfl

/-- C7, witness: in the five-column sheet `df7`, the row with exactly one
non-null cell (20% of 5 columns) survives the keyword filter and is retained
by the sparsity rule. -/
theorem C7_sparsity_witness :
    [some "x", none, none, none, none] ∈ afterKeywordFilter df7 ∧
      ([some "x", none, none, none, none] ∈ (cleanNoHeader df7).rows ↔
        ¬ ((nonNullCount [some "x", none, none, none, none] : ℚ) <
            (df7.cols.length : ℚ) / 5)) :=
  ⟨by decide, C7_sparsity df7 [some "x", none, none, none, none] (by decide)⟩

/-- C8: when every input file either fails to read or yields an empty
dataframe, the run returns the no-op result: no output dataframe is written
and no file is moved to the done folder. -/
theorem C8_empty_batch (files : List (String × ReadResult))
    (h : ∀ f ∈ files, ∀ df, f.2 = Except.ok df → emptyDF df = true) :
    compile_xlsx_to_csv files = ⟨none, []⟩ := by
  have hs : surviving files = [] := by
    rw [surviving, List.filterMap_eq_nil_iff]
    intro f hf
    cases hdf : f.2 with
    | error e => simp [hdf]
    | ok df => simp [hdf, h f hf df hdf]
  rw [compile_eq_surviving, hs]
  rfl

/-- C8, witness: a run with one unreadable file and one empty dataframe
returns the no-op result. -/
theorem C8_empty_batch_witness :
    (∀ f ∈ [("bad.xlsx", (Except.error () : ReadResult)),
            ("empty.xlsx", (Except.ok df5 : ReadResult))],
       ∀ df, f.2 = Except.ok df → emptyDF df = true) ∧
      compile_xlsx_to_csv
          [("bad.xlsx", Except.error ()), ("empty.xlsx", Except.ok df5)] =
        ⟨none, []⟩ := by
  have h : ∀ f ∈ [("bad.xlsx", (Except.error () : ReadResult)),
                  ("empty.xlsx", (Except.ok df5 : ReadResult))],
      ∀ df, f.2 = Except.ok df → emptyDF df = true := by
    intro f hf df hdf
    fin_cases hf
    · exact absurd hdf (by simp)
    · injection hdf with h'
      subst h'
      decide
  exact ⟨h, C8_empty_batch _ h⟩

/-- C9: a file whose read raises an exception has no effect on the run — the
result (output dataframe and moved files) is the same as if the file were
absent: it contributes no rows, is not moved, and all other files are still
processed. -/
theorem C9_read_error_isolated (pre post : List (String × ReadResult))
    (name : String) :
    compile_xlsx_to_csv (pre ++ (name, Except.error ()) :: post) =
      compile_xlsx_to_csv (pre ++ post) := by
  have hs : surviving (pre ++ (name, Except.error ()) :: post) =
      surviving (pre ++ post) := by
    simp [surviving, List.filterMap_append, List.filterMap_cons]
  rw [compile_eq_surviving, compile_eq_surviving, hs]

/-- C10: a file that reads successfully but yields an empty dataframe has no
effect on the run — the result is the same as if the file were absent: it
contributes no rows, is not recorded as processed, and is not moved to the
done folder, while the rest of the run proceeds unchanged. -/
theorem C10_empty_df_left_behind (pre post : List (String × ReadResult))
    (name : String) (df : DF) (h : emptyDF df = true) :
    compile_xlsx_to_csv (pre ++ (name, Except.ok df) :: post) =
      compile_xlsx_to_csv (pre ++ post) := by
  have hs : surviving (pre ++ (name, Except.ok df) :: post) =
      surviving (pre ++ post) := by
    simp [surviving, List.filterMap_append, List.filterMap_cons, h]
  rw [compile_eq_surviving, compile_eq_surviving, hs]

/-- C10, witness: appending an empty-dataframe file to a run with one good
file leaves the run's result unchanged — the good file's output is written
and only the good file is moved. -/
theorem C10_empty_df_left_behind_witness :
    emptyDF df5 = true ∧
      compile_xlsx_to_csv
          [("good.xlsx", Except.ok dfGood), ("empty.xlsx", Except.ok df5)] =
        compile_xlsx_to_csv [("good.xlsx", Except.ok dfGood)] :=
  ⟨by decide,
   C10_empty_df_left_behind [("good.xlsx", Except.ok dfGood)] [] "empty.xlsx"
     df5 (by decide)⟩

end SpreadsheetCompiler
